import Mathlib

/-!
Verification of the data-quality and anomaly-detection engine of
`mcp-data-detective` (files `src/data_detective/tools/quality.py`,
`src/data_detective/tools/profile.py`, `src/data_detective/sources/registry.py`).

The Python code issues SQL against a DuckDB backend.  The embedding models a
table as an explicit list of rows and gives each SQL aggregate the DuckDB
semantics it has there (COUNT, COUNT(DISTINCT ...) ignoring NULLs, GROUP BY
treating NULLs as one group, AVG, STDDEV = STDDEV_SAMP).  Python floats are
modelled as exact rationals; square roots are represented by carrying the
square of the quantity (variance instead of standard deviation, squared
z-scores), which determines the original non-negative quantity uniquely.
-/

/-! ## Character-level string utilities

The registry's `query` method does Python string surgery (`strip`, `rstrip`,
`lower`, `split("--")`, `split("/*")`, substring test) before deciding whether
to append a LIMIT clause.  These are modelled on `List Char` so that every
operation reduces in the kernel. -/

/-- Whether `pat` is a leading segment of `s` (character-wise equality). -/
def leadsWith : List Char → List Char → Bool
  | [], _ => true
  | _ :: _, [] => false
  | a :: as, b :: bs => a = b && leadsWith as bs

/-- Python's `pat in s` substring test on character lists. -/
def containsSeq (pat : List Char) : List Char → Bool
  | [] => pat.isEmpty
  | b :: bs => leadsWith pat (b :: bs) || containsSeq pat bs

/-- Python's `needle in hay` on strings (used for type-fragment and keyword
substring heuristics and for the registry's `"limit" in sql` test). -/
def strContains (hay needle : String) : Bool :=
  containsSeq needle.toList hay.toList

/-- Lower-case a character list (Python `str.lower` restricted to ASCII, which
is all the code ever feeds it). -/
def lowerSeq (s : List Char) : List Char :=
  s.map Char.toLower

/-- Python `str.lower` on strings. -/
def pyLower (s : String) : String :=
  ⟨lowerSeq s.toList⟩

/-- Python's `s.endswith(pat)` on strings. -/
def endsWithSeq (s pat : String) : Bool :=
  leadsWith pat.toList.reverse s.toList.reverse

/-- Python `str.strip()` (whitespace from both ends). -/
def stripWs (s : List Char) : List Char :=
  ((s.dropWhile Char.isWhitespace).reverse.dropWhile Char.isWhitespace).reverse

/-- Python `s.rstrip(";")`. -/
def rstripSemi (s : List Char) : List Char :=
  (s.reverse.dropWhile (fun c => c = ';')).reverse

/-- Python `s.split(marker)[0]`: the part of `s` before the first occurrence of
`marker` (all of `s` when the marker does not occur). -/
def beforeSeq (marker : List Char) : List Char → List Char
  | [] => []
  | c :: cs => if leadsWith marker (c :: cs) then [] else c :: beforeSeq marker cs

/-! ## Data model for the quality scanner

`detect_quality_issues` works over one table: a schema (ordered column
name/declared-type pairs, from `DESCRIBE`) and rows of nullable cells. -/

/-- A cell value as DuckDB hands it back: NULL, a numeric, or a text value.
Numeric values are exact rationals (model of DuckDB numerics / Python floats). -/
inductive Cell where
  | null : Cell
  | num : Rat → Cell
  | str : String → Cell
deriving DecidableEq, Repr

/-- One entry of the `DESCRIBE` result: column name and declared type string. -/
structure ColInfo where
  column : String
  type : String
deriving DecidableEq, Repr

/-- A table snapshot: name, schema and rows.  Each row lists its cells in
schema order. -/
structure QTable where
  name : String
  schema : List ColInfo
  rows : List (List Cell)
deriving DecidableEq, Repr

/-- One detected issue.  The human-readable `message` of the Python dict is
presentation-only (a format of the structured fields) and is not modelled;
every structured field is.  Fields that a given issue type does not set are
`none`, mirroring keys absent from the Python dict. -/
structure Issue where
  itype : String
  severity : String
  column : Option String := none
  duplicate_groups : Option Nat := none
  columns_checked : Option (List String) := none
  null_rate : Option Rat := none
  null_count : Option Nat := none
  negative_count : Option Nat := none
deriving DecidableEq, Repr

/-- The dict returned by `detect_quality_issues`. -/
structure QualityReport where
  table : String
  row_count : Nat
  issues : List Issue
  issue_count : Nat
deriving DecidableEq, Repr

/-! ## SQL aggregate semantics used by the scanner -/

/-- Number of groups with more than one member when grouping `keys` by
equality: DuckDB's
`SELECT COUNT(*) FROM (SELECT key, COUNT(*) AS cnt ... GROUP BY key HAVING cnt > 1)`.
GROUP BY puts all NULLs into one group, which is what cell equality does. -/
def dupGroupCount {α : Type} [DecidableEq α] (keys : List α) : Nat :=
  (keys.dedup.filter (fun k => 1 < keys.count k)).length

/-- Values of the i-th schema column down the rows (the scanner's per-column
queries address one column of the table; columns are identified positionally
since `DESCRIBE` lists each column once). -/
def colAt (rows : List (List Cell)) (i : Nat) : List Cell :=
  rows.map (fun r => r.getD i Cell.null)

/-- `SELECT COUNT(*) ... WHERE col IS NULL`. -/
def nullCount (vals : List Cell) : Nat :=
  vals.count Cell.null

/-- `SELECT COUNT(DISTINCT col)`: distinct values, NULLs ignored (DuckDB
semantics of COUNT(DISTINCT ...)). -/
def distinctCount (vals : List Cell) : Nat :=
  ((vals.filter (fun c => c ≠ Cell.null)).dedup).length

/-- `SELECT COUNT(*) ... WHERE col < 0`: NULLs compare to nothing, text never
occurs in the numeric columns this query is issued for. -/
def negCount (vals : List Cell) : Nat :=
  (vals.filter (fun c => match c with | Cell.num q => decide (q < 0) | _ => false)).length

/-! ## Heuristics of the scanner (`quality.py` lines 59–62 and 121–126) -/

/-- `c["column"].lower().endswith(("_id", "id"))`. -/
def isIdLike (c : String) : Bool :=
  endsWithSeq (pyLower c) "_id" || endsWithSeq (pyLower c) "id"

/-- The numeric-type substring heuristic of `detect_quality_issues`:
`any(t in col_type for t in ["int", "float", "double", "decimal", "numeric", "real"])`
over the lower-cased declared type. -/
def isNumericType (t : String) : Bool :=
  ["int", "float", "double", "decimal", "numeric", "real"].any
    (fun frag => strContains (pyLower t) frag)

/-- `any(kw in col.lower() for kw in positive_keywords)`. -/
def likelyPositive (c : String) : Bool :=
  ["price", "amount", "total", "quantity", "qty", "count", "cost", "revenue", "fee"].any
    (fun kw => strContains (pyLower c) kw)

/-! ## Python `round` on rationals -/

/-- Round a rational to the nearest integer, ties to even (Python `round`). -/
def roundHalfEven (q : Rat) : Int :=
  let f := q.floor
  let frac := q - f
  if frac < (1 : Rat) / 2 then f
  else if (1 : Rat) / 2 < frac then f + 1
  else if f % 2 = 0 then f else f + 1

/-- Python `round(q, nd)` on the exact-rational model of floats. -/
def pyRound (q : Rat) (nd : Nat) : Rat :=
  let scale : Rat := (10 : Rat) ^ nd
  (roundHalfEven (q * scale) : Rat) / scale

/-! ## The quality scanner (`detect_quality_issues`)

Besides the report, the embedding returns a log with one tag per backend
query issued, in order, so that claims about which queries run are statable. -/

/-- One backend query issued by `detect_quality_issues`: the row count, the
exact-duplicate group-by, the semantic-duplicate group-by, and the per-column
null-count, distinct-count and negative-count queries. -/
inductive QueryTag where
  | rowCount : QueryTag
  | dupGroups : QueryTag
  | semDup : QueryTag
  | nullQ : String → QueryTag
  | distinctQ : String → QueryTag
  | negQ : String → QueryTag
deriving DecidableEq, Repr

/-- Severity of the duplicates issues:
`"high" if dup_count > row_count * 0.01 else "medium"`. -/
def dupSeverity (dups rowCount : Nat) : String :=
  if (dups : Rat) > (rowCount : Rat) * 0.01 then "high" else "medium"

/-- The projection of a row onto the non-ID-like columns of the schema
(the column list of the semantic-duplicates GROUP BY). -/
def projNonId (schema : List ColInfo) (row : List Cell) : List Cell :=
  ((schema.zip row).filter (fun p => !isIdLike p.1.column)).map (fun p => p.2)

/-- Names of the columns whose name does not end in `id` / `_id`
(`non_id_cols` in the source). -/
def nonIdColsOf (schema : List ColInfo) : List String :=
  (schema.filter (fun c => !isIdLike c.column)).map (fun c => c.column)

/-- `dup_count` of the source: exact-duplicate groups (GROUP BY all columns). -/
def dupGroupsOf (t : QTable) : Nat :=
  dupGroupCount t.rows

/-- `sem_dup_count` of the source: duplicate groups after projecting away
ID-like columns. -/
def semGroupsOf (t : QTable) : Nat :=
  dupGroupCount (t.rows.map (projNonId t.schema))

/-- Guard of the semantic-duplicates check:
`if non_id_cols and len(non_id_cols) < len(schema)`. -/
def semGuard (t : QTable) : Bool :=
  !(nonIdColsOf t.schema).isEmpty && (nonIdColsOf t.schema).length < t.schema.length

/-- The `duplicates` issue of the source. -/
def dupIssue (t : QTable) : Issue :=
  { itype := "duplicates",
    severity := dupSeverity (dupGroupsOf t) t.rows.length,
    duplicate_groups := some (dupGroupsOf t) }

/-- The `duplicates` issue list (empty or a singleton). -/
def dupIssuesOf (t : QTable) : List Issue :=
  if 0 < dupGroupsOf t then [dupIssue t] else []

/-- The `semantic_duplicates` issue of the source. -/
def semIssue (t : QTable) : Issue :=
  { itype := "semantic_duplicates",
    severity := dupSeverity (semGroupsOf t) t.rows.length,
    duplicate_groups := some (semGroupsOf t),
    columns_checked := some (nonIdColsOf t.schema) }

/-- The `semantic_duplicates` issue list (empty or a singleton). -/
def semIssuesOf (t : QTable) : List Issue :=
  if semGuard t then
    if 0 < semGroupsOf t ∧ semGroupsOf t ≠ dupGroupsOf t then [semIssue t]
    else []
  else []

/-- The null rate of the column at schema position `i`: `null_count / row_count`. -/
def nullRateOf (rowCount : Nat) (rows : List (List Cell)) (i : Nat) : Rat :=
  (nullCount (colAt rows i) : Rat) / (rowCount : Rat)

/-- The `high_null_rate` issue for schema entry `ci` at position `i`. -/
def nullIssue (rowCount : Nat) (rows : List (List Cell)) (i : Nat) (ci : ColInfo) : Issue :=
  { itype := "high_null_rate",
    severity := if nullRateOf rowCount rows i > 0.3 then "high" else "medium",
    column := some ci.column,
    null_rate := some (pyRound (nullRateOf rowCount rows i) 4),
    null_count := some (nullCount (colAt rows i)) }

/-- The `constant_column` issue for schema entry `ci`. -/
def constIssue (ci : ColInfo) : Issue :=
  { itype := "constant_column", severity := "low", column := some ci.column }

/-- The `unexpected_negatives` issue for schema entry `ci` at position `i`. -/
def negIssue (rows : List (List Cell)) (i : Nat) (ci : ColInfo) : Issue :=
  { itype := "unexpected_negatives",
    severity := "high",
    column := some ci.column,
    negative_count := some (negCount (colAt rows i)) }

/-- Issues the per-column loop body appends for schema entry `ci` at position
`i` (null-rate check, constant-column check, unexpected-negatives check, in
source order). -/
def columnIssues (rowCount : Nat) (rows : List (List Cell)) (i : Nat) (ci : ColInfo) :
    List Issue :=
  (if nullRateOf rowCount rows i > 0.05 then [nullIssue rowCount rows i ci] else []) ++
  (if distinctCount (colAt rows i) = 1 ∧ 1 < rowCount then [constIssue ci] else []) ++
  (if isNumericType ci.type && likelyPositive ci.column then
      if 0 < negCount (colAt rows i) then [negIssue rows i ci] else []
    else [])

/-- Backend queries the per-column loop body issues for schema entry `ci`: the
null count and distinct count always, the negative count only for numeric
likely-positive columns. -/
def columnLog (ci : ColInfo) : List QueryTag :=
  [QueryTag.nullQ ci.column, QueryTag.distinctQ ci.column] ++
    (if isNumericType ci.type && likelyPositive ci.column then
      [QueryTag.negQ ci.column] else [])

/-- `detect_quality_issues` (quality.py lines 10–148): the returned report,
paired with one log tag per backend query issued.  An empty table returns
immediately after the row-count query. -/
def detectQualityIssues (t : QTable) : QualityReport × List QueryTag :=
  if t.rows.length = 0 then
    (⟨t.name, 0, [], 0⟩, [QueryTag.rowCount])
  else
    let issues :=
      dupIssuesOf t ++ semIssuesOf t ++
        (t.schema.enum.map (fun p => columnIssues t.rows.length t.rows p.1 p.2)).flatten
    (⟨t.name, t.rows.length, issues, issues.length⟩,
      [QueryTag.rowCount, QueryTag.dupGroups] ++
        (if semGuard t then [QueryTag.semDup] else []) ++
        (t.schema.map (fun ci => columnLog ci)).flatten)

/-! ## The anomaly detector (`detect_anomalies`)

Row-level mode queries one numeric column; its backend view of the table is
the list of that column's (nullable) values.  DuckDB's `AVG` averages the
non-null values and `STDDEV` is an alias of `STDDEV_SAMP`: the sample
standard deviation (divisor N−1), NULL on fewer than two rows.  Standard
deviations are irrational in general, so the embedding carries their squares
(variances) and squared z-scores; since both sides of every comparison are
non-negative, the squares determine them. -/

/-- The non-null values of a nullable column (`WHERE col IS NOT NULL`). -/
def nonNullVals (vals : List (Option Rat)) : List Rat :=
  vals.filterMap id

/-- DuckDB `AVG(col)`: mean of the non-null values, NULL when there are none. -/
def sqlAvg (vals : List (Option Rat)) : Option Rat :=
  let xs := nonNullVals vals
  if xs.length = 0 then none else some (xs.sum / (xs.length : Rat))

/-- DuckDB `STDDEV(col)` is `STDDEV_SAMP(col)`, the sample standard deviation:
square root of `Σ (v − mean)² / (N − 1)`, NULL for fewer than two non-null
rows.  This definition returns its square (the sample variance). -/
def sqlVarSamp (vals : List (Option Rat)) : Option Rat :=
  let xs := nonNullVals vals
  if xs.length < 2 then none
  else
    let mean := xs.sum / (xs.length : Rat)
    some ((xs.map (fun v => (v - mean) ^ 2)).sum / ((xs.length : Rat) - 1))

/-- Exact reflection of `ABS((v - mean) / stddev) >= threshold` where
`stddev = √var` with `var > 0`: true iff the threshold is non-positive or
`(v − mean)² ≥ threshold² · var`. -/
def zAbsGe (dev var threshold : Rat) : Bool :=
  decide (threshold ≤ 0) || decide (threshold ^ 2 * var ≤ dev ^ 2)

/-- One row returned by the row-level outlier query: the row's column value
together with its z-score `z = (value − mean)/stddev`, represented exactly by
its square `zSq = (value − mean)²/var` and its sign bit `zPos` (`z > 0`). -/
structure RowAnomaly where
  value : Rat
  zSq : Rat
  zPos : Bool
deriving DecidableEq, Repr

/-- The dict returned by row-level `detect_anomalies`.  `statsVarSamp` is the
square of the reported stddev (which the source additionally rounds to two
decimals for display, as it does the mean). -/
structure RowReport where
  table : String
  column : String
  method : String
  z_threshold : Rat
  statsMean : Rat
  statsVarSamp : Rat
  statsCount : Nat
  anomalies : List RowAnomaly
  anomaly_count : Nat
deriving DecidableEq, Repr

/-- Row-level `detect_anomalies` (quality.py lines 220–248): one aggregate
query for AVG/STDDEV/COUNT with NULL coerced to 0 by `or 0`, then — only when
the stddev is positive — an outlier query filtering `|z| ≥ threshold`,
ordering by `|z|` descending and keeping at most 100 rows. -/
def detectAnomaliesRow (table column : String) (vals : List (Option Rat))
    (z_threshold : Rat) : RowReport :=
  let mean := (sqlAvg vals).getD 0
  let svar := (sqlVarSamp vals).getD 0
  let cnt := (nonNullVals vals).length
  let anomalies :=
    if 0 < svar then
      (List.insertionSort (fun a b : RowAnomaly => b.zSq ≤ a.zSq)
        (((nonNullVals vals).filter (fun v => zAbsGe (v - mean) svar z_threshold)).map
          (fun v => ⟨v, (v - mean) ^ 2 / svar, decide (0 < v - mean)⟩))).take 100
    else []
  ⟨table, column, "z_score_row_level", z_threshold, mean, svar, cnt,
    anomalies, anomalies.length⟩

/-- Modelled from the spec: the population variance (divisor N, not N−1) of
the non-null values of the column — the statistic §4.2 and the glossary say
row-level mode uses.  The source instead delegates to the backend `STDDEV`,
which is the sample statistic; this definition exists only to compare the two. -/
def specPopVar (vals : List (Option Rat)) : Rat :=
  let xs := nonNullVals vals
  if xs.length = 0 then 0
  else
    let mean := xs.sum / (xs.length : Rat)
    (xs.map (fun v => (v - mean) ^ 2)).sum / (xs.length : Rat)

/-! ### Time-aggregated mode

The backend view of the table is a list of raw `(day, value)` pairs where
`day` is the calendar date `CAST(time_column AS DATE)` (modelled as `Int`) and
`value` the nullable column value of that row. -/

/-- One row of the daily-aggregation query result. -/
structure DayBucket where
  day : Int
  daily_value : Rat
  daily_count : Nat
deriving DecidableEq, Repr

/-- Result of
`SELECT CAST(time AS DATE) AS day, SUM(col), COUNT(*) ... WHERE col IS NOT NULL GROUP BY day ORDER BY day`:
one bucket per distinct day among the rows with non-null value, in ascending
day order, with the sum and count of that day's values. -/
def dayAggFull (raw : List (Int × Option Rat)) : List DayBucket :=
  let kept := raw.filterMap (fun p => p.2.map (fun v => (p.1, v)))
  let days := List.insertionSort (fun a b : Int => a ≤ b) (kept.map Prod.fst).dedup
  days.map (fun d =>
    ⟨d, ((kept.filter (fun q => q.1 = d)).map (fun q => q.2)).sum,
      (kept.filter (fun q => q.1 = d)).length⟩)

/-- Double-quote an identifier as the source's f-strings do. -/
def sqlQuote (s : String) : String :=
  "\"" ++ s ++ "\""

/-- The qualified table reference:
`f'"{source}"."{table}"' if source else f'"{table}"'`. -/
def qualifiedName (table : String) (source : Option String) : String :=
  match source with
  | some s => sqlQuote s ++ "." ++ sqlQuote table
  | none => sqlQuote table

/-- The aggregation SQL text built by time-aggregated `detect_anomalies`. -/
def aggQuery (qualified safeTime safeCol : String) : String :=
  "SELECT CAST(" ++ safeTime ++ " AS DATE) AS day, " ++
    "SUM(" ++ safeCol ++ ") AS daily_value, COUNT(*) AS daily_count " ++
    "FROM " ++ qualified ++ " WHERE " ++ safeCol ++ " IS NOT NULL " ++
    "GROUP BY day ORDER BY day"

/-- The test `SourceRegistry.query` applies before appending a LIMIT clause:
`"limit" in trimmed.lower().split("--")[0].split("/*")[0]` where `trimmed`
is the SQL stripped of whitespace and trailing semicolons. -/
def queryHasLimit (sql : String) : Bool :=
  let trimmed := rstripSemi (stripWs sql.toList)
  containsSeq "limit".toList
    (beforeSeq "/*".toList (beforeSeq "--".toList (lowerSeq trimmed)))

/-- `SourceRegistry.query` (registry.py lines 122–134) as seen through the
backend: `result` is what the SQL alone evaluates to; when the SQL lacks a
`limit` substring, `LIMIT limit` is appended, truncating to the first `limit`
rows. -/
def registryQuery (sql : String) (limit : Nat) (result : List DayBucket) :
    List DayBucket :=
  if queryHasLimit sql then result else result.take limit

/-- The day-bucket rows time-aggregated `detect_anomalies` iterates over:
the daily aggregation, routed through `registry.query(agg_query, limit=10000)`. -/
def timeAggRows (table column time_column : String) (source : Option String)
    (raw : List (Int × Option Rat)) : List DayBucket :=
  registryQuery
    (aggQuery (qualifiedName table source) (sqlQuote time_column) (sqlQuote column))
    10000 (dayAggFull raw)

/-- `mean = sum(values) / len(values)` over the daily sums. -/
def rowsMean (rows : List DayBucket) : Rat :=
  (rows.map (fun r => r.daily_value)).sum / (rows.length : Rat)

/-- Square of `stddev = (sum((v - mean) ** 2 for v in values) / len(values)) ** 0.5`:
the population variance (divisor N) of the daily sums, computed in Python. -/
def rowsVarPop (rows : List DayBucket) : Rat :=
  ((rows.map (fun r => r.daily_value)).map (fun v => (v - rowsMean rows) ^ 2)).sum /
    (rows.length : Rat)

/-- One day-bucket anomaly: `z_score` is represented exactly by its square
`zSq` (the source rounds `z` to two decimals for display). -/
structure TimeAnomaly where
  day : Int
  value : Rat
  count : Nat
  zSq : Rat
  direction : String
deriving DecidableEq, Repr

/-- The `stats` sub-dict of the time-aggregated report; `varPop` is the square
of the reported stddev. -/
structure TimeStats where
  mean : Rat
  varPop : Rat
  days : Nat
deriving DecidableEq, Repr

/-- The dict returned by time-aggregated `detect_anomalies`.  Fields the early
return omits from the dict are `none` there. -/
structure TimeReport where
  table : String
  column : String
  time_column : Option String
  method : Option String
  z_threshold : Option Rat
  stats : Option TimeStats
  anomalies : List TimeAnomaly
  anomaly_count : Option Nat
  message : Option String
deriving DecidableEq, Repr

/-- The explanatory empty report returned on fewer than 3 day-buckets. -/
def fewDataReport (table column : String) : TimeReport :=
  ⟨table, column, none, none, none, none, [], none,
    some "Not enough data points for anomaly detection"⟩

/-- Time-aggregated `detect_anomalies` after the aggregation query (quality.py
lines 188–219): early return under 3 buckets, otherwise population mean and
variance over the daily sums and — only when the stddev is positive — one
anomaly per bucket with `|z| ≥ threshold`, tagged `"above"` when `z > 0`. -/
def detectFromRows (table column time_column : String) (z_threshold : Rat)
    (rows : List DayBucket) : TimeReport :=
  if rows.length < 3 then fewDataReport table column
  else
    let mean := rowsMean rows
    let varP := rowsVarPop rows
    let anomalies :=
      if 0 < varP then
        (rows.filter (fun r => zAbsGe (r.daily_value - mean) varP z_threshold)).map
          (fun r =>
            ⟨r.day, r.daily_value, r.daily_count, (r.daily_value - mean) ^ 2 / varP,
              if 0 < r.daily_value - mean then "above" else "below"⟩)
      else []
    ⟨table, column, some time_column, some "z_score_daily_aggregation",
      some z_threshold, some ⟨mean, varP, rows.length⟩, anomalies,
      some anomalies.length, none⟩

/-- Time-aggregated `detect_anomalies` (quality.py lines 177–219): build the
aggregation SQL, fetch its rows through `registry.query` with `limit=10000`,
then analyse them. -/
def detectAnomaliesTime (table column time_column : String) (source : Option String)
    (raw : List (Int × Option Rat)) (z_threshold : Rat) : TimeReport :=
  detectFromRows table column time_column z_threshold
    (timeAggRows table column time_column source raw)

/-! ## The catalog summary (`summarize`, profile.py lines 98–145)

A connected source is a list of tables; for each table the guarded
`SELECT COUNT(*)` either yields a row count or raises (modelled as `Option`),
and `get_schema` yields the column list. -/

/-- A table as `summarize` sees it: its name, its schema's column names, and
the outcome of the row-count query (`none` = the query raised). -/
structure MTable where
  tname : String
  columns : List String
  queryResult : Option Nat
deriving DecidableEq, Repr

/-- A connected source: alias, source-type string, tables. -/
structure MSource where
  sname : String
  stype : String
  tables : List MTable
deriving DecidableEq, Repr

/-- The per-table entry `summarize` records. -/
structure TableSummary where
  tname : String
  row_count : Int
  column_count : Nat
  columns : List String
deriving DecidableEq, Repr

/-- The per-source entry `summarize` records. -/
structure SourceSummary where
  sname : String
  stype : String
  tables : List TableSummary
deriving DecidableEq, Repr

/-- The dict returned by `summarize`. -/
structure Summary where
  total_sources : Nat
  total_tables : Nat
  total_rows : Int
  sources : List SourceSummary
deriving DecidableEq, Repr

/-- `row_count` recorded for a table: the query's value, or −1 when it raised
(`except Exception: row_count = -1`). -/
def tableRowCount (tb : MTable) : Int :=
  match tb.queryResult with
  | none => -1
  | some n => (n : Int)

/-- The `tables` list built for one source. -/
def summarizeTables (tbs : List MTable) : List TableSummary :=
  tbs.map (fun tb => ⟨tb.tname, tableRowCount tb, tb.columns.length, tb.columns⟩)

/-- `summarize`: visit every source and every table; `total_rows` accumulates
only the row counts with `row_count > 0` (so failed tables, recorded as −1,
contribute nothing). -/
def summarize (srcs : List MSource) : Summary :=
  let sourcesSummary := srcs.map (fun s => ⟨s.sname, s.stype, summarizeTables s.tables⟩)
  { total_sources := sourcesSummary.length,
    total_tables := (sourcesSummary.map (fun s : SourceSummary => s.tables.length)).sum,
    total_rows :=
      (srcs.map (fun s =>
        ((s.tables.map tableRowCount).filter (fun r => 0 < r)).sum)).sum,
    sources := sourcesSummary }

/-! ## Concrete inputs used by the witness theorems -/

/-- An empty table (zero rows). -/
def tblEmpty : QTable :=
  ⟨"empty", [⟨"a", "INTEGER"⟩], []⟩

/-- The users table of the spec's duplicate-detection test vector: an id-like
first column, and rows 1 and 4 identical outside it. -/
def tblUsers : QTable :=
  ⟨"users", [⟨"id", "INTEGER"⟩, ⟨"name", "VARCHAR"⟩, ⟨"email", "VARCHAR"⟩],
    [[Cell.num 1, Cell.str "Alice", Cell.str "a@x.com"],
     [Cell.num 2, Cell.str "Bob", Cell.null],
     [Cell.num 3, Cell.str "Charlie", Cell.str "c@x.com"],
     [Cell.num 4, Cell.str "Alice", Cell.str "a@x.com"]]⟩

/-- An orders table whose `amount` column holds a single negative value
(−10.50) among positives. -/
def tblOrders : QTable :=
  ⟨"orders", [⟨"id", "INTEGER"⟩, ⟨"amount", "REAL"⟩],
    [[Cell.num 1, Cell.num (9999 / 100 : Rat)],
     [Cell.num 2, Cell.num (-21 / 2 : Rat)],
     [Cell.num 3, Cell.num 5]]⟩

/-- A three-row, one-column table with exactly one NULL: its null rate is 1/3,
which has no finite decimal expansion. -/
def tblNull3 : QTable :=
  ⟨"t3", [⟨"v", "VARCHAR"⟩],
    [[Cell.str "a"], [Cell.str "b"], [Cell.null]]⟩

/-- A two-row table whose single column is constant. -/
def tblConst : QTable :=
  ⟨"c2", [⟨"x", "INTEGER"⟩], [[Cell.num 7], [Cell.num 7]]⟩

/-- Column values 0,0,0,0,5: mean 1, population variance 4, sample variance 5.
With threshold 1.5 the value 5 is flagged (its sample z-score is √3.2 ≈ 1.79). -/
def valsOutlier : List (Option Rat) :=
  [some 0, some 0, some 0, some 0, some 5]

/-- A constant non-null column (standard deviation zero). -/
def valsConst : List (Option Rat) :=
  [some 3, some 3]

/-- Raw (day, value) data spanning only two days. -/
def rawTwoDays : List (Int × Option Rat) :=
  [(0, some 1), (1, some 2)]

/-- Raw (day, value) data: three days with identical daily sums (variance 0). -/
def rawConst3 : List (Int × Option Rat) :=
  [(0, some 4), (1, some 4), (2, some 4)]

/-- Raw (day, value) data with four days, one of them far off. -/
def rawSpike : List (Int × Option Rat) :=
  [(0, some 1), (1, some 1), (2, some 1), (3, some 100)]

/-- A source registry with one healthy table, one whose row-count query
raises, and one empty table. -/
def srcsDemo : List MSource :=
  [⟨"s1", "sqlite",
    [⟨"good", ["a"], some 5⟩, ⟨"bad", ["b"], none⟩, ⟨"empty", ["c"], some 0⟩]⟩]

unseal Rat.mul Rat.inv Rat.add Rat.sub Rat.ofScientific

/-! ## General membership lemmas -/

/-- Membership in a conditional singleton list. -/
theorem mem_ite_singleton {α : Type} {c : Prop} [Decidable c] {x a : α} :
    a ∈ (if c then [x] else []) ↔ c ∧ a = x := by
  by_cases h : c <;> simp [h]

/-- Membership in a nested conditional singleton list. -/
theorem mem_ite_ite_singleton {α : Type} {c₁ c₂ : Prop} [Decidable c₁] [Decidable c₂]
    {x a : α} :
    a ∈ (if c₁ then if c₂ then [x] else [] else []) ↔ c₁ ∧ c₂ ∧ a = x := by
  by_cases h₁ : c₁ <;> by_cases h₂ : c₂ <;> simp [h₁, h₂]

/-! ## Structure of the scanner's issue list -/

/-- On a non-empty table the scanner's issue list consists of the duplicate
issues, the semantic-duplicate issues, and the per-column issues of each
schema entry. -/
theorem mem_scan_issues {t : QTable} {a : Issue} (h : ¬ t.rows.length = 0) :
    a ∈ (detectQualityIssues t).1.issues ↔
      a ∈ dupIssuesOf t ∨ a ∈ semIssuesOf t ∨
        ∃ p ∈ t.schema.enum, a ∈ columnIssues t.rows.length t.rows p.1 p.2 := by
  simp only [detectQualityIssues, h, if_neg, List.mem_append, List.mem_flatten,
    List.mem_map, not_false_iff]
  constructor
  · rintro ((h1 | h1) | ⟨l, ⟨p, hp, rfl⟩, hl⟩)
    · exact Or.inl h1
    · exact Or.inr (Or.inl h1)
    · exact Or.inr (Or.inr ⟨p, hp, hl⟩)
  · rintro (h1 | h1 | ⟨p, hp, hl⟩)
    · exact Or.inl (Or.inl h1)
    · exact Or.inl (Or.inr h1)
    · exact Or.inr ⟨_, ⟨p, hp, rfl⟩, hl⟩

/-- Membership in the per-column issue list, by check. -/
theorem mem_columnIssues {rc : Nat} {rows : List (List Cell)} {i : Nat} {ci : ColInfo}
    {a : Issue} :
    a ∈ columnIssues rc rows i ci ↔
      (nullRateOf rc rows i > 0.05 ∧ a = nullIssue rc rows i ci) ∨
      ((distinctCount (colAt rows i) = 1 ∧ 1 < rc) ∧ a = constIssue ci) ∨
      ((isNumericType ci.type && likelyPositive ci.column) = true ∧
        0 < negCount (colAt rows i) ∧ a = negIssue rows i ci) := by
  simp [columnIssues, List.mem_append, mem_ite_singleton, mem_ite_ite_singleton]

/-- Issues from the duplicates check carry the `duplicates` tag. -/
theorem itype_of_mem_dupIssuesOf {t : QTable} {a : Issue} (h : a ∈ dupIssuesOf t) :
    a.itype = "duplicates" := by
  obtain ⟨-, rfl⟩ := mem_ite_singleton.mp h
  rfl

/-- Issues from the semantic-duplicates check carry the `semantic_duplicates`
tag. -/
theorem itype_of_mem_semIssuesOf {t : QTable} {a : Issue} (h : a ∈ semIssuesOf t) :
    a.itype = "semantic_duplicates" := by
  obtain ⟨-, -, rfl⟩ := mem_ite_ite_singleton.mp h
  rfl

/-- Per-column issues carry one of the three per-column tags. -/
theorem itype_of_mem_columnIssues {rc : Nat} {rows : List (List Cell)} {i : Nat}
    {ci : ColInfo} {a : Issue} (h : a ∈ columnIssues rc rows i ci) :
    a.itype = "high_null_rate" ∨ a.itype = "constant_column" ∨
      a.itype = "unexpected_negatives" := by
  rcases mem_columnIssues.mp h with ⟨-, rfl⟩ | ⟨-, rfl⟩ | ⟨-, -, rfl⟩
  · exact Or.inl rfl
  · exact Or.inr (Or.inl rfl)
  · exact Or.inr (Or.inr rfl)

/-- Tag of the null-rate issue. -/
theorem nullIssue_itype (rc : Nat) (rows : List (List Cell)) (i : Nat) (ci : ColInfo) :
    (nullIssue rc rows i ci).itype = "high_null_rate" := rfl

/-- Tag of the constant-column issue. -/
theorem constIssue_itype (ci : ColInfo) :
    (constIssue ci).itype = "constant_column" := rfl

/-- Tag of the unexpected-negatives issue. -/
theorem negIssue_itype (rows : List (List Cell)) (i : Nat) (ci : ColInfo) :
    (negIssue rows i ci).itype = "unexpected_negatives" := rfl

/-- The Boolean guard of the semantic-duplicates check, as a proposition. -/
theorem semGuard_true_iff {t : QTable} :
    semGuard t = true ↔
      nonIdColsOf t.schema ≠ [] ∧ (nonIdColsOf t.schema).length < t.schema.length := by
  simp [semGuard, List.isEmpty_iff]

/-! ## Claim theorems -/

/-- C2: a table with zero rows yields a report with an empty issue list and
`issue_count = 0`, and the only backend query issued is the row count — no
per-column and no duplicate-detection queries (hence no divide-by-zero path,
and no error: the function is total). -/
theorem c2_empty_table_scan (t : QTable) (h : t.rows.length = 0) :
    detectQualityIssues t = (⟨t.name, 0, [], 0⟩, [QueryTag.rowCount]) := by
  simp [detectQualityIssues, h]

/-- Witness for C2 at a concrete empty table. -/
theorem c2_empty_table_scan_witness :
    detectQualityIssues tblEmpty = (⟨"empty", 0, [], 0⟩, [QueryTag.rowCount]) :=
  c2_empty_table_scan tblEmpty rfl

/-- C3: the semantic-duplicate group-by runs exactly when the table is
non-empty and the set of non-id-like columns is non-empty and strictly smaller
than the schema, and a `semantic_duplicates` issue is emitted exactly when
additionally the semantic duplicate-group count is nonzero and differs from
the exact duplicate-group count. -/
theorem c3_semantic_duplicates_gating (t : QTable) :
    (QueryTag.semDup ∈ (detectQualityIssues t).2 ↔
      t.rows.length ≠ 0 ∧ nonIdColsOf t.schema ≠ [] ∧
        (nonIdColsOf t.schema).length < t.schema.length) ∧
    ((∃ a ∈ (detectQualityIssues t).1.issues, a.itype = "semantic_duplicates") ↔
      t.rows.length ≠ 0 ∧ nonIdColsOf t.schema ≠ [] ∧
        (nonIdColsOf t.schema).length < t.schema.length ∧
        0 < semGroupsOf t ∧ semGroupsOf t ≠ dupGroupsOf t) := by
  by_cases h0 : t.rows.length = 0
  · constructor
    · simp [detectQualityIssues, h0]
    · simp [detectQualityIssues, h0]
  · constructor
    · rw [show (detectQualityIssues t).2 =
          [QueryTag.rowCount, QueryTag.dupGroups] ++
            (if semGuard t then [QueryTag.semDup] else []) ++
            (t.schema.map (fun ci => columnLog ci)).flatten by
          simp [detectQualityIssues, h0]]
      simp only [List.mem_append, List.mem_flatten, List.mem_map]
      constructor
      · rintro ((hm | hm) | hm)
        · simp at hm
        · rcases mem_ite_singleton.mp hm with ⟨hg, -⟩
          exact ⟨h0, semGuard_true_iff.mp hg⟩
        · rcases hm with ⟨l, ⟨ci, -, rfl⟩, hl⟩
          rcases List.mem_append.mp hl with hl | hl
          · simp [columnLog] at hl
          · rcases mem_ite_singleton.mp hl with ⟨-, hl⟩
            cases hl
      · rintro ⟨-, hg⟩
        exact Or.inl (Or.inr (mem_ite_singleton.mpr
          ⟨semGuard_true_iff.mpr hg, rfl⟩))
    · constructor
      · rintro ⟨a, ha, hty⟩
        rcases (mem_scan_issues h0).mp ha with hm | hm | ⟨p, -, hm⟩
        · rw [itype_of_mem_dupIssuesOf hm] at hty
          exact absurd hty (by decide)
        · obtain ⟨hg, ⟨hpos, hneq⟩, -⟩ := mem_ite_ite_singleton.mp hm
          exact ⟨h0, (semGuard_true_iff.mp hg).1, (semGuard_true_iff.mp hg).2, hpos, hneq⟩
        · rcases itype_of_mem_columnIssues hm with h1 | h1 | h1 <;>
            (rw [h1] at hty; exact absurd hty (by decide))
      · rintro ⟨-, hne, hlt, hpos, hneq⟩
        refine ⟨semIssue t, ?_, rfl⟩
        exact (mem_scan_issues h0).mpr (Or.inr (Or.inl
          (mem_ite_ite_singleton.mpr
            ⟨semGuard_true_iff.mpr ⟨hne, hlt⟩, ⟨hpos, hneq⟩, rfl⟩)))

/-- Witness for C3 at the spec's duplicate-detection test table. -/
theorem c3_semantic_duplicates_gating_witness :
    QueryTag.semDup ∈ (detectQualityIssues tblUsers).2 ∧
    (∃ a ∈ (detectQualityIssues tblUsers).1.issues,
      a.itype = "semantic_duplicates") := by
  exact ⟨(c3_semantic_duplicates_gating tblUsers).1.mpr (by decide),
    (c3_semantic_duplicates_gating tblUsers).2.mpr (by decide)⟩

/-- C7: an `unexpected_negatives` issue is emitted exactly for the columns
whose declared type matches the numeric substring heuristic, whose name
contains one of the positive keywords, and which hold at least one negative
value; every such issue has severity `high` and its `negative_count` is the
column's number of negative values. -/
theorem c7_unexpected_negatives (t : QTable) :
    (∀ a ∈ (detectQualityIssues t).1.issues, a.itype = "unexpected_negatives" →
      a.severity = "high" ∧ ∃ p ∈ t.schema.enum,
        a.column = some p.2.column ∧ isNumericType p.2.type = true ∧
        likelyPositive p.2.column = true ∧ 0 < negCount (colAt t.rows p.1) ∧
        a.negative_count = some (negCount (colAt t.rows p.1))) ∧
    (∀ p ∈ t.schema.enum, 0 < t.rows.length →
      isNumericType p.2.type = true → likelyPositive p.2.column = true →
      0 < negCount (colAt t.rows p.1) →
      ∃ a ∈ (detectQualityIssues t).1.issues,
        a.itype = "unexpected_negatives" ∧ a.column = some p.2.column ∧
        a.severity = "high" ∧
        a.negative_count = some (negCount (colAt t.rows p.1))) := by
  constructor
  · intro a ha hty
    by_cases h0 : t.rows.length = 0
    · rw [show (detectQualityIssues t).1.issues = [] by simp [detectQualityIssues, h0]] at ha
      cases ha
    · rcases (mem_scan_issues h0).mp ha with hm | hm | ⟨p, hp, hm⟩
      · rw [itype_of_mem_dupIssuesOf hm] at hty
        exact absurd hty (by decide)
      · rw [itype_of_mem_semIssuesOf hm] at hty
        exact absurd hty (by decide)
      · rcases mem_columnIssues.mp hm with ⟨-, rfl⟩ | ⟨-, rfl⟩ | ⟨hb, hn, rfl⟩
        · rw [nullIssue_itype] at hty
          exact absurd hty (by decide)
        · rw [constIssue_itype] at hty
          exact absurd hty (by decide)
        · rw [Bool.and_eq_true] at hb
          exact ⟨rfl, p, hp, rfl, hb.1, hb.2, hn, rfl⟩
  · intro p hp hrc hnum hlik hneg
    refine ⟨negIssue t.rows p.1 p.2, ?_, rfl, rfl, rfl, rfl⟩
    refine (mem_scan_issues (Nat.pos_iff_ne_zero.mp hrc)).mpr
      (Or.inr (Or.inr ⟨p, hp, ?_⟩))
    exact mem_columnIssues.mpr
      (Or.inr (Or.inr ⟨by rw [Bool.and_eq_true]; exact ⟨hnum, hlik⟩, hneg, rfl⟩))

/-- Witness for C7 at a concrete `amount` column holding one −10.50 value. -/
theorem c7_unexpected_negatives_witness :
    ∃ a ∈ (detectQualityIssues tblOrders).1.issues,
      a.itype = "unexpected_negatives" ∧ a.column = some "amount" ∧
      a.severity = "high" ∧ a.negative_count = some 1 := by
  have h := (c7_unexpected_negatives tblOrders).2 (1, ⟨"amount", "REAL"⟩)
    (by decide) (by decide) (by decide) (by decide) (by decide)
  obtain ⟨a, ha, h1, h2, h3, h4⟩ := h
  exact ⟨a, ha, h1, h2, h3, by rw [h4]; decide⟩

/-- C8 (amended): a `high_null_rate` issue is emitted for a column exactly
when `null_count / row_count > 0.05`; its severity is `high` when the rate
exceeds 0.3 and `medium` otherwise; the reported `null_count` is the column's
actual null count and the reported `null_rate` is the actual ratio rounded to
four decimal places (which can differ from the exact ratio). -/
theorem c8_high_null_rate (t : QTable) :
    (∀ a ∈ (detectQualityIssues t).1.issues, a.itype = "high_null_rate" →
      ∃ p ∈ t.schema.enum,
        a.column = some p.2.column ∧
        nullRateOf t.rows.length t.rows p.1 > 0.05 ∧
        a.severity =
          (if nullRateOf t.rows.length t.rows p.1 > 0.3 then "high" else "medium") ∧
        a.null_count = some (nullCount (colAt t.rows p.1)) ∧
        a.null_rate = some (pyRound (nullRateOf t.rows.length t.rows p.1) 4)) ∧
    (∀ p ∈ t.schema.enum, 0 < t.rows.length →
      nullRateOf t.rows.length t.rows p.1 > 0.05 →
      ∃ a ∈ (detectQualityIssues t).1.issues,
        a.itype = "high_null_rate" ∧ a.column = some p.2.column ∧
        a.severity =
          (if nullRateOf t.rows.length t.rows p.1 > 0.3 then "high" else "medium") ∧
        a.null_count = some (nullCount (colAt t.rows p.1)) ∧
        a.null_rate = some (pyRound (nullRateOf t.rows.length t.rows p.1) 4)) := by
  constructor
  · intro a ha hty
    by_cases h0 : t.rows.length = 0
    · rw [show (detectQualityIssues t).1.issues = [] by simp [detectQualityIssues, h0]] at ha
      cases ha
    · rcases (mem_scan_issues h0).mp ha with hm | hm | ⟨p, hp, hm⟩
      · rw [itype_of_mem_dupIssuesOf hm] at hty
        exact absurd hty (by decide)
      · rw [itype_of_mem_semIssuesOf hm] at hty
        exact absurd hty (by decide)
      · rcases mem_columnIssues.mp hm with ⟨hr, rfl⟩ | ⟨-, rfl⟩ | ⟨-, -, rfl⟩
        · exact ⟨p, hp, rfl, hr, rfl, rfl, rfl⟩
        · rw [constIssue_itype] at hty
          exact absurd hty (by decide)
        · rw [negIssue_itype] at hty
          exact absurd hty (by decide)
  · intro p hp hrc hr
    refine ⟨nullIssue t.rows.length t.rows p.1 p.2, ?_, rfl, rfl, rfl, rfl, rfl⟩
    exact (mem_scan_issues (Nat.pos_iff_ne_zero.mp hrc)).mpr
      (Or.inr (Or.inr ⟨p, hp, mem_columnIssues.mpr (Or.inl ⟨hr, rfl⟩)⟩))

/-- C8, counterexample to the claim as stated: on a three-row table with one
NULL the actual null ratio is 1/3, a `high_null_rate` issue fires, and the
issue's reported `null_rate` (the ratio rounded to four decimal places,
0.3333) is not the actual ratio. -/
theorem c8_high_null_rate_cex :
    (∃ a ∈ (detectQualityIssues tblNull3).1.issues, a.itype = "high_null_rate") ∧
    (∀ a ∈ (detectQualityIssues tblNull3).1.issues, a.itype = "high_null_rate" →
      a.null_rate ≠
        some ((nullCount (colAt tblNull3.rows 0) : Rat) / (tblNull3.rows.length : Rat))) := by
  decide

/-- Witness for C8 (amended) at the three-row table with one NULL. -/
theorem c8_high_null_rate_witness :
    ∃ a ∈ (detectQualityIssues tblNull3).1.issues,
      a.itype = "high_null_rate" ∧ a.column = some "v" ∧ a.severity = "high" ∧
      a.null_count = some 1 ∧ a.null_rate = some ((3333 : Rat) / 10000) := by
  have h := (c8_high_null_rate tblNull3).2 (0, ⟨"v", "VARCHAR"⟩)
    (by decide) (by decide) (by decide)
  obtain ⟨a, ha, h1, h2, h3, h4, h5⟩ := h
  exact ⟨a, ha, h1, h2, by rw [h3]; decide, by rw [h4]; decide, by rw [h5]; decide⟩

/-- C9: a `constant_column` issue is emitted for a column name exactly when
some schema entry with that name has distinct count 1 and the table has more
than one row (so a single-row table is never flagged); every such issue has
severity `low`. -/
theorem c9_constant_column (t : QTable) (c : String) :
    ((∃ a ∈ (detectQualityIssues t).1.issues,
        a.itype = "constant_column" ∧ a.column = some c) ↔
      1 < t.rows.length ∧ ∃ p ∈ t.schema.enum,
        p.2.column = c ∧ distinctCount (colAt t.rows p.1) = 1) ∧
    (∀ a ∈ (detectQualityIssues t).1.issues, a.itype = "constant_column" →
      a.severity = "low") := by
  constructor
  · constructor
    · rintro ⟨a, ha, hty, hcol⟩
      by_cases h0 : t.rows.length = 0
      · rw [show (detectQualityIssues t).1.issues = [] by
            simp [detectQualityIssues, h0]] at ha
        cases ha
      · rcases (mem_scan_issues h0).mp ha with hm | hm | ⟨p, hp, hm⟩
        · rw [itype_of_mem_dupIssuesOf hm] at hty
          exact absurd hty (by decide)
        · rw [itype_of_mem_semIssuesOf hm] at hty
          exact absurd hty (by decide)
        · rcases mem_columnIssues.mp hm with ⟨-, rfl⟩ | ⟨⟨hd, hrc⟩, rfl⟩ | ⟨-, -, rfl⟩
          · rw [nullIssue_itype] at hty
            exact absurd hty (by decide)
          · exact ⟨hrc, p, hp, Option.some.inj hcol, hd⟩
          · rw [negIssue_itype] at hty
            exact absurd hty (by decide)
    · rintro ⟨hrc, p, hp, hc, hd⟩
      refine ⟨constIssue p.2, ?_, rfl, by simp [constIssue, hc]⟩
      refine (mem_scan_issues (by omega)).mpr (Or.inr (Or.inr ⟨p, hp, ?_⟩))
      exact mem_columnIssues.mpr (Or.inr (Or.inl ⟨⟨hd, hrc⟩, rfl⟩))
  · intro a ha hty
    by_cases h0 : t.rows.length = 0
    · rw [show (detectQualityIssues t).1.issues = [] by
          simp [detectQualityIssues, h0]] at ha
      cases ha
    · rcases (mem_scan_issues h0).mp ha with hm | hm | ⟨p, hp, hm⟩
      · rw [itype_of_mem_dupIssuesOf hm] at hty
        exact absurd hty (by decide)
      · rw [itype_of_mem_semIssuesOf hm] at hty
        exact absurd hty (by decide)
      · rcases mem_columnIssues.mp hm with ⟨-, rfl⟩ | ⟨-, rfl⟩ | ⟨-, -, rfl⟩
        · rw [nullIssue_itype] at hty
          exact absurd hty (by decide)
        · rfl
        · rw [negIssue_itype] at hty
          exact absurd hty (by decide)

/-- Witness for C9 at a concrete two-row constant column. -/
theorem c9_constant_column_witness :
    ∃ a ∈ (detectQualityIssues tblConst).1.issues,
      a.itype = "constant_column" ∧ a.column = some "x" :=
  (c9_constant_column tblConst "x").1.mpr (by decide)

/-! ## Structure of the anomaly lists -/

/-- Every row-level anomaly record comes from a non-null column value passing
the z-threshold filter under a positive (sample) variance. -/
theorem mem_row_anomalies {table column : String} {vals : List (Option Rat)} {z : Rat}
    {a : RowAnomaly}
    (h : a ∈ (detectAnomaliesRow table column vals z).anomalies) :
    0 < (sqlVarSamp vals).getD 0 ∧
    ∃ v ∈ nonNullVals vals,
      zAbsGe (v - (sqlAvg vals).getD 0) ((sqlVarSamp vals).getD 0) z = true ∧
      a = ⟨v, (v - (sqlAvg vals).getD 0) ^ 2 / (sqlVarSamp vals).getD 0,
            decide (0 < v - (sqlAvg vals).getD 0)⟩ := by
  simp only [detectAnomaliesRow] at h
  split at h
  · refine ⟨by assumption, ?_⟩
    have h1 := List.take_subset _ _ h
    have h2 := (List.perm_insertionSort _ _).mem_iff.mp h1
    rcases List.mem_map.mp h2 with ⟨v, hv, rfl⟩
    rcases List.mem_filter.mp hv with ⟨hv1, hv2⟩
    exact ⟨v, hv1, hv2, rfl⟩
  · cases h

/-- Every time-aggregated anomaly record comes from one of the day buckets
passing the z-threshold filter under a positive (population) variance. -/
theorem mem_time_anomalies {table column time_column : String} {z : Rat}
    {rows : List DayBucket} {a : TimeAnomaly}
    (h : a ∈ (detectFromRows table column time_column z rows).anomalies) :
    0 < rowsVarPop rows ∧
    ∃ r ∈ rows,
      zAbsGe (r.daily_value - rowsMean rows) (rowsVarPop rows) z = true ∧
      a = ⟨r.day, r.daily_value, r.daily_count,
            (r.daily_value - rowsMean rows) ^ 2 / rowsVarPop rows,
            if 0 < r.daily_value - rowsMean rows then "above" else "below"⟩ := by
  simp only [detectFromRows] at h
  split at h
  · simp [fewDataReport] at h
  · split at h
    · refine ⟨by assumption, ?_⟩
      rcases List.mem_map.mp h with ⟨r, hr, rfl⟩
      rcases List.mem_filter.mp hr with ⟨hr1, hr2⟩
      exact ⟨r, hr1, hr2, rfl⟩
    · cases h

/-- C1 (amended): in row-level mode the reported mean is the backend `AVG`
over the non-null values, the reported standard deviation is the backend
`STDDEV`, i.e. the SAMPLE standard deviation (divisor N−1, not the
population's N), every anomaly's value occurs in the column, and every
reported z-score is `(value − mean) / sample stddev` (stated on squares since
the stddev is a square root). -/
theorem c1_row_level_sample_zscores (table column : String) (vals : List (Option Rat))
    (z : Rat) :
    (detectAnomaliesRow table column vals z).statsMean = (sqlAvg vals).getD 0 ∧
    (detectAnomaliesRow table column vals z).statsVarSamp = (sqlVarSamp vals).getD 0 ∧
    ∀ a ∈ (detectAnomaliesRow table column vals z).anomalies,
      some a.value ∈ vals ∧
      a.zSq = (a.value - (sqlAvg vals).getD 0) ^ 2 / (sqlVarSamp vals).getD 0 := by
  refine ⟨rfl, rfl, fun a ha => ?_⟩
  obtain ⟨-, v, hv, -, rfl⟩ := mem_row_anomalies ha
  refine ⟨?_, rfl⟩
  rcases List.mem_filterMap.mp hv with ⟨o, ho, hom⟩
  have h3 : o = some v := hom
  exact h3 ▸ ho

/-- C1, counterexample to the claim as stated: on the column 0,0,0,0,5 with
threshold 1.5 the value 5 is reported as an anomaly, and its reported z-score
(square 16/5, from the sample stddev √5) is not `(value − mean)` over the
population stddev 2 (square would be 4): the code divides by N−1, not N.
Two real z-scores are equal exactly when their squares are, so refuting the
squared form refutes the claim. -/
theorem c1_row_level_population_cex :
    ¬ (∀ a ∈ (detectAnomaliesRow "t" "v" valsOutlier (3 / 2)).anomalies,
        a.zSq = (a.value - (sqlAvg valsOutlier).getD 0) ^ 2 / specPopVar valsOutlier) := by
  decide

/-- Witness for C1 (amended) at the concrete outlier column. -/
theorem c1_row_level_sample_zscores_witness :
    some ((5 : Rat)) ∈ valsOutlier ∧
    ((⟨5, 16 / 5, true⟩ : RowAnomaly)).zSq =
      (((⟨5, 16 / 5, true⟩ : RowAnomaly)).value - (sqlAvg valsOutlier).getD 0) ^ 2 /
        (sqlVarSamp valsOutlier).getD 0 := by
  have h := (c1_row_level_sample_zscores "t" "v" valsOutlier (3 / 2)).2.2
    ⟨5, 16 / 5, true⟩ (by decide)
  exact ⟨h.1, h.2⟩

/-- C4: when the daily aggregation yields fewer than 3 day buckets,
time-aggregated `detect_anomalies` returns the explanatory empty report —
no anomalies, no exception (the function is total). -/
theorem c4_few_buckets_empty_report (table column time_column : String)
    (source : Option String) (raw : List (Int × Option Rat)) (z : Rat)
    (h : (timeAggRows table column time_column source raw).length < 3) :
    detectAnomaliesTime table column time_column source raw z =
      fewDataReport table column := by
  simp [detectAnomaliesTime, detectFromRows, h]

/-- Witness for C4 on raw data spanning two days. -/
theorem c4_few_buckets_empty_report_witness :
    detectAnomaliesTime "events" "value" "ts" none rawTwoDays 3 =
      fewDataReport "events" "value" ∧
    (detectAnomaliesTime "events" "value" "ts" none rawTwoDays 3).anomalies = [] := by
  have h := c4_few_buckets_empty_report "events" "value" "ts" none rawTwoDays 3 (by decide)
  exact ⟨h, by rw [h]; rfl⟩

/-- C5: in both modes a zero standard deviation yields an empty anomaly list
(no division is reached), and every reported anomaly requires a positive
standard deviation and `|z| ≥ z_threshold`. -/
theorem c5_zero_stddev_guard (table column time_column : String) (source : Option String)
    (vals : List (Option Rat)) (raw : List (Int × Option Rat)) (z : Rat) :
    ((sqlVarSamp vals).getD 0 = 0 →
      (detectAnomaliesRow table column vals z).anomalies = []) ∧
    (∀ a ∈ (detectAnomaliesRow table column vals z).anomalies,
      0 < (sqlVarSamp vals).getD 0 ∧
      zAbsGe (a.value - (sqlAvg vals).getD 0) ((sqlVarSamp vals).getD 0) z = true) ∧
    (rowsVarPop (timeAggRows table column time_column source raw) = 0 →
      (detectAnomaliesTime table column time_column source raw z).anomalies = []) ∧
    (∀ a ∈ (detectAnomaliesTime table column time_column source raw z).anomalies,
      0 < rowsVarPop (timeAggRows table column time_column source raw) ∧
      zAbsGe (a.value - rowsMean (timeAggRows table column time_column source raw))
        (rowsVarPop (timeAggRows table column time_column source raw)) z = true) := by
  refine ⟨?_, ?_, ?_, ?_⟩
  · intro hv
    simp [detectAnomaliesRow, hv]
  · intro a ha
    obtain ⟨hpos, v, -, hz, rfl⟩ := mem_row_anomalies ha
    exact ⟨hpos, hz⟩
  · intro hv
    simp only [detectAnomaliesTime, detectFromRows]
    split
    · rfl
    · simp [hv]
  · intro a ha
    obtain ⟨hpos, r, -, hz, rfl⟩ := mem_time_anomalies ha
    exact ⟨hpos, hz⟩

/-- Witness for C5 at a constant column and constant daily sums. -/
theorem c5_zero_stddev_guard_witness :
    (detectAnomaliesRow "events" "value" valsConst 3).anomalies = [] ∧
    (detectAnomaliesTime "events" "value" "ts" none rawConst3 3).anomalies = [] := by
  have h := c5_zero_stddev_guard "events" "value" "ts" none valsConst rawConst3 3
  exact ⟨h.1 (by decide), h.2.2.1 (by decide)⟩

/-- The day keys of the daily aggregation are pairwise distinct (one bucket
per distinct day). -/
theorem dayAggFull_days_nodup (raw : List (Int × Option Rat)) :
    ((dayAggFull raw).map (fun b => b.day)).Nodup := by
  have h2 : ((dayAggFull raw).map (fun b => b.day)) =
      List.insertionSort (fun a b : Int => a ≤ b)
        (((raw.filterMap (fun p => p.2.map (fun v => (p.1, v)))).map Prod.fst).dedup) := by
    simp only [dayAggFull, List.map_map]
    exact List.map_id _
  rw [h2]
  exact ((List.perm_insertionSort _ _).nodup_iff).mpr (List.nodup_dedup _)

/-- C10: the aggregation SQL has no `limit` substring (hypothesis `h`, true of
the text the code builds whenever the interpolated identifiers avoid it), so
`registry.query` appends `LIMIT 10000` and the detector analyses only the
first 10000 day buckets in ascending day order; any bucket beyond the first
10000 can never be the day of a reported anomaly. -/
theorem c10_limit_caps_day_buckets (table column time_column : String)
    (source : Option String) (raw : List (Int × Option Rat)) (z : Rat)
    (h : queryHasLimit (aggQuery (qualifiedName table source) (sqlQuote time_column)
          (sqlQuote column)) = false) :
    detectAnomaliesTime table column time_column source raw z =
      detectFromRows table column time_column z ((dayAggFull raw).take 10000) ∧
    ∀ b ∈ (dayAggFull raw).drop 10000,
      ∀ a ∈ (detectAnomaliesTime table column time_column source raw z).anomalies,
        a.day ≠ b.day := by
  have hrows : timeAggRows table column time_column source raw =
      (dayAggFull raw).take 10000 := by
    simp [timeAggRows, registryQuery, h]
  constructor
  · simp only [detectAnomaliesTime]
    rw [hrows]
  · intro b hb a ha heq
    simp only [detectAnomaliesTime, hrows] at ha
    obtain ⟨-, r, hr, -, rfl⟩ := mem_time_anomalies ha
    have hmem : r.day ∈ ((dayAggFull raw).take 10000).map (fun b => b.day) :=
      List.mem_map_of_mem _ hr
    have hb' : b.day ∈ ((dayAggFull raw).drop 10000).map (fun b => b.day) :=
      List.mem_map_of_mem _ hb
    have hnd := dayAggFull_days_nodup raw
    rw [← List.take_append_drop 10000 (dayAggFull raw), List.map_append] at hnd
    have hr' : r.day = b.day := heq
    exact (List.nodup_append.mp hnd).2.2 hmem (hr'.symm ▸ hb')

/-- Witness for C10: on a concrete query the limit test is false and the
detector runs on the truncated bucket list. -/
theorem c10_limit_caps_day_buckets_witness :
    detectAnomaliesTime "events" "value" "ts" none rawSpike (3 / 2) =
      detectFromRows "events" "value" "ts" (3 / 2) ((dayAggFull rawSpike).take 10000) :=
  (c10_limit_caps_day_buckets "events" "value" "ts" none rawSpike (3 / 2) (by decide)).1

/-- C6: `summarize` visits every connected source and every table in it; each
table is recorded with its name, columns and row count, a table whose
row-count query raised is recorded with `row_count = -1`, and the rest of the
summary is still produced (the function is total — nothing aborts). -/
theorem c6_summarize_tolerates_failures (srcs : List MSource) :
    (summarize srcs).total_sources = srcs.length ∧
    (summarize srcs).sources.length = srcs.length ∧
    ∀ s ∈ srcs, ∃ e ∈ (summarize srcs).sources,
      e.sname = s.sname ∧ e.stype = s.stype ∧ e.tables = summarizeTables s.tables ∧
      e.tables.length = s.tables.length ∧
      ∀ tb ∈ s.tables, ∃ te ∈ e.tables,
        te.tname = tb.tname ∧ te.columns = tb.columns ∧
        te.row_count = tableRowCount tb ∧
        (tb.queryResult = none → te.row_count = -1) := by
  refine ⟨by simp [summarize], by simp [summarize], ?_⟩
  intro s hs
  refine ⟨⟨s.sname, s.stype, summarizeTables s.tables⟩, ?_, rfl, rfl, rfl, ?_, ?_⟩
  · simp only [summarize]
    exact List.mem_map_of_mem _ hs
  · simp [summarizeTables]
  · intro tb htb
    refine ⟨⟨tb.tname, tableRowCount tb, tb.columns.length, tb.columns⟩, ?_, rfl, rfl, rfl, ?_⟩
    · exact List.mem_map_of_mem _ htb
    · intro hq
      simp [tableRowCount, hq]

/-- Witness for C6 at a registry holding a broken table. -/
theorem c6_summarize_tolerates_failures_witness :
    ∃ e ∈ (summarize srcsDemo).sources, e.sname = "s1" ∧
      ∃ te ∈ e.tables, te.tname = "bad" ∧ te.row_count = -1 := by
  have h := (c6_summarize_tolerates_failures srcsDemo).2.2
    ⟨"s1", "sqlite",
      [⟨"good", ["a"], some 5⟩, ⟨"bad", ["b"], none⟩, ⟨"empty", ["c"], some 0⟩]⟩
    (by decide)
  obtain ⟨e, he, hn, -, -, -, hall⟩ := h
  obtain ⟨te, hte, htn, -, -, hneg⟩ := hall ⟨"bad", ["b"], none⟩ (by decide)
  exact ⟨e, he, hn, te, hte, htn, hneg rfl⟩
